import Mathlib

/-!
Shallow embedding of the todo-back service layer (src/services/TodoService.ts,
src/models/Todo.ts, src/types/TodoTypes.ts and the GraphQL resolvers), together
with theorems settling the specification claims about it.

The MongoDB store is modelled as a `List Todo`; document ids are `Nat`;
timestamps are `Int` (milliseconds since epoch).  JavaScript truthiness tests
in the source (`if (filters.search)`, `pagination?.page || 1`, ...) are
modelled explicitly: the empty string and the number 0 are falsy, everything
else the source ever tests is truthy.
-/

namespace TodoBack

/-- The `TodoPriority` enum from src/models/Todo.ts. -/
inductive TodoPriority
  | LOW
  | MEDIUM
  | HIGH
  | URGENT
  deriving DecidableEq, Repr

/-- The `TodoStatus` enum from src/models/Todo.ts. -/
inductive TodoStatus
  | TODO
  | IN_PROGRESS
  | COMPLETED
  deriving DecidableEq, Repr

/-- The `ITodo` document shape from src/models/Todo.ts (the fields the service
layer reads or writes; `createdAt`/`updatedAt` are set by the store and never
consulted by the claims under study). -/
structure Todo where
  id : Nat
  title : String
  description : Option String
  status : TodoStatus
  priority : TodoPriority
  dueDate : Option Int
  tags : List String
  completed : Bool
  deriving DecidableEq, Repr

/-- The `TodoFilters` input from src/types/TodoTypes.ts: every field optional. -/
structure TodoFilters where
  status : Option TodoStatus := none
  completed : Option Bool := none
  priority : Option TodoPriority := none
  tags : Option (List String) := none
  search : Option String := none
  dueDateBefore : Option Int := none
  dueDateAfter : Option Int := none
  deriving DecidableEq, Repr

/-- The Mongo query object built by `TodoService.getTodos`
(src/services/TodoService.ts lines 49-83).  Each field is one clause of the
conjunctive predicate; `none` means the clause is absent.  `searchRegex` holds
the `$or` pair of case-insensitive `$regex` clauses on title/description;
`dueLte`/`dueGte` are the `$lte`/`$gte` bounds merged into `query.dueDate`. -/
structure Query where
  status : Option TodoStatus := none
  completed : Option Bool := none
  priority : Option TodoPriority := none
  tagsIn : Option (List String) := none
  searchRegex : Option String := none
  dueLte : Option Int := none
  dueGte : Option Int := none
  deriving DecidableEq, Repr

/-- The filter-composition part of `TodoService.getTodos`
(src/services/TodoService.ts lines 52-83).  Field by field:
`filters.status !== undefined` and `filters.completed !== undefined` test
presence; `if (filters.priority)` is truthiness, but every enum value is a
non-empty string, so it is presence as well; `filters.tags &&
filters.tags.length > 0` drops an empty supplied list; `if (filters.search)`
is string truthiness, dropping the empty string; `if (filters.dueDateBefore)`
/ `if (filters.dueDateAfter)` receive Date values, which are always truthy. -/
def buildQuery (filters : TodoFilters) : Query :=
  { status := filters.status
    completed := filters.completed
    priority := filters.priority
    tagsIn :=
      match filters.tags with
      | some ts => if ts.length > 0 then some ts else none
      | none => none
    searchRegex :=
      match filters.search with
      | some s => if s = "" then none else some s
      | none => none
    dueLte := filters.dueDateBefore
    dueGte := filters.dueDateAfter }

/-- In `getTodos` the filters argument is optional (`filters?`); when it is
absent the query object stays `{}` (src/services/TodoService.ts line 49, 52). -/
def getTodosQuery (filters : Option TodoFilters) : Query :=
  match filters with
  | some f => buildQuery f
  | none => {}

/-- Case-insensitive character comparison, as performed by a JS regex compiled
with the `"i"` flag (ASCII folding in this model). -/
def charCI (a b : Char) : Bool := a.toLower = b.toLower

/-- One pattern character against one subject character: `'.'` is the
wildcard, every other pattern character matches case-insensitively. -/
def reTokenMatch (p c : Char) : Bool := p = '.' || charCI p c

/-- Does the pattern match starting exactly at the head of the subject?
Models the JS/Mongo regex engine on the fragment the theorems below use:
patterns made of literal characters and the `'.'` wildcard. -/
def reMatchHere : List Char → List Char → Bool
  | [], _ => true
  | _ :: _, [] => false
  | p :: ps, c :: cs => reTokenMatch p c && reMatchHere ps cs

/-- Unanchored regex search: does the pattern match at some position of the
subject?  This is what `{$regex: pattern, $options: "i"}` asks of a stored
string (src/services/TodoService.ts lines 66-69). -/
def reSearch (p : List Char) : List Char → Bool
  | [] => reMatchHere p []
  | c :: cs => reMatchHere p (c :: cs) || reSearch p cs

/-- Model of `new RegExp(pattern, "i")` tested against `s`, unanchored, on the
literal-and-dot fragment. -/
def regexTestCI (pattern s : String) : Bool :=
  reSearch pattern.toList s.toList

/-- The `$or` search clause of the query (src/services/TodoService.ts lines
66-69): the regex is tried on `title` and on `description`; a document whose
`description` field is absent fails the `description` disjunct. -/
def searchClauseMatches (pattern : String) (t : Todo) : Bool :=
  regexTestCI pattern t.title ||
    (match t.description with
     | some d => regexTestCI pattern d
     | none => false)

/-- The `$in` clause on `tags` (src/services/TodoService.ts line 63): the
document matches when its tag array contains at least one listed value. -/
def tagsInMatches (ts : List String) (t : Todo) : Bool :=
  ts.any (fun tag => t.tags.contains tag)

/-- Mongo evaluation of the query object built above, clause by clause,
conjunctively; an absent clause matches every document, and a range clause on
`dueDate` fails on documents with no `dueDate`. -/
def queryMatches (q : Query) (t : Todo) : Bool :=
  (match q.status with
   | some v => t.status = v
   | none => true) &&
  (match q.completed with
   | some v => t.completed = v
   | none => true) &&
  (match q.priority with
   | some v => t.priority = v
   | none => true) &&
  (match q.tagsIn with
   | some ts => tagsInMatches ts t
   | none => true) &&
  (match q.searchRegex with
   | some s => searchClauseMatches s t
   | none => true) &&
  (match q.dueLte with
   | some b =>
       match t.dueDate with
       | some d => d ≤ b
       | none => false
   | none => true) &&
  (match q.dueGte with
   | some b =>
       match t.dueDate with
       | some d => b ≤ d
       | none => false
   | none => true)

/-- The `PaginationInput` shape from src/types/TodoTypes.ts (the claims under study use
only `page` and `limit`). -/
structure PaginationInput where
  page : Option Int := none
  limit : Option Int := none
  deriving DecidableEq, Repr

/-- JavaScript `x || d` for an optional number: `undefined` and `0` are
falsy and yield the default; every other number (negative included) passes
through unchanged. -/
def jsOrNum (x : Option Int) (d : Int) : Int :=
  match x with
  | some v => if v = 0 then d else v
  | none => d

/-- Line `const page = pagination?.page || 1` (src/services/TodoService.ts line 86). -/
def effectivePage (p : Option PaginationInput) : Int :=
  jsOrNum (p.bind (fun x => x.page)) 1

/-- Line `const limit = pagination?.limit || 10` (src/services/TodoService.ts line 87). -/
def effectiveLimit (p : Option PaginationInput) : Int :=
  jsOrNum (p.bind (fun x => x.limit)) 10

/-- Line `const skip = (page - 1) * limit` (src/services/TodoService.ts line 88). -/
def skipOf (p : Option PaginationInput) : Int :=
  (effectivePage p - 1) * effectiveLimit p

/-- The `TodoUpdateInput` shape from src/types/TodoTypes.ts: every field optional. -/
structure TodoUpdateInput where
  title : Option String := none
  description : Option String := none
  status : Option TodoStatus := none
  priority : Option TodoPriority := none
  dueDate : Option Int := none
  tags : Option (List String) := none
  completed : Option Bool := none
  deriving DecidableEq, Repr

/-- The `updateData` patch object built by `TodoService.updateTodo`
(src/services/TodoService.ts lines 131-146): each input field present is
copied into the patch; `status` is first copied from `input.status` (line
136) and then overwritten with COMPLETED when `input.completed` is `true`
(lines 143-145). -/
structure TodoPatch where
  title : Option String := none
  description : Option String := none
  status : Option TodoStatus := none
  priority : Option TodoPriority := none
  dueDate : Option Int := none
  tags : Option (List String) := none
  completed : Option Bool := none
  deriving DecidableEq, Repr

/-- Builds `updateData` from the input, src/services/TodoService.ts lines
131-146. -/
def buildUpdateData (u : TodoUpdateInput) : TodoPatch :=
  { title := u.title
    description := u.description
    status :=
      match u.completed with
      | some true => some TodoStatus.COMPLETED
      | _ => u.status
    priority := u.priority
    dueDate := u.dueDate
    tags := u.tags
    completed := u.completed }

/-- Mongo `$set` of a patch on a document: exactly the fields present in the
patch are replaced, every other field keeps its stored value. -/
def applySet (t : Todo) (p : TodoPatch) : Todo :=
  { id := t.id
    title := p.title.getD t.title
    description :=
      match p.description with
      | some v => some v
      | none => t.description
    status := p.status.getD t.status
    priority := p.priority.getD t.priority
    dueDate :=
      match p.dueDate with
      | some v => some v
      | none => t.dueDate
    tags := p.tags.getD t.tags
    completed := p.completed.getD t.completed }

/-- The effect of `TodoService.updateTodo` on one document. -/
def applyUpdate (t : Todo) (u : TodoUpdateInput) : Todo :=
  applySet t (buildUpdateData u)

/-- JS `String.prototype.trim()`, the setter applied by the schema's
`trim: true` before validation (src/models/Todo.ts lines 38, 43): whitespace
is stripped from both ends (ASCII whitespace in this model). -/
def jsTrim (s : String) : String :=
  String.mk (((s.toList.dropWhile Char.isWhitespace).reverse.dropWhile
    Char.isWhitespace).reverse)

/-- Does the patch's title violate `maxlength: [200, "Title cannot exceed
200 characters"]` (src/models/Todo.ts line 39) after trimming? -/
def titleTooLong (p : TodoPatch) : Bool :=
  match p.title with
  | some v => 200 < (jsTrim v).length
  | none => false

/-- Does the patch's description violate `maxlength: [1000, "Description
cannot exceed 1000 characters"]` (src/models/Todo.ts line 44) after
trimming? -/
def descriptionTooLong (p : TodoPatch) : Bool :=
  match p.description with
  | some v => 1000 < (jsTrim v).length
  | none => false

/-- The update validation that `runValidators: true`
(src/services/TodoService.ts line 151) runs on the `$set` paths before the
id is ever looked up: the message of the first failing schema validator from
src/models/Todo.ts, or `none` when the patch validates.  In this typed model
the enum, Date, Boolean and string-array paths cannot fail, and a `$set`
title is always a present string, which leaves the two maxlength checks. -/
def updateValidationError (p : TodoPatch) : Option String :=
  if titleTooLong p then some ("Title cannot exceed 200 characters")
  else if descriptionTooLong p then
    some ("Description cannot exceed 1000 characters")
  else none

/-- Model of `Todo.findByIdAndUpdate(id, {$set: updateData}, {new: true,
runValidators: true})` over the list-of-documents store
(src/services/TodoService.ts lines 148-152).  The update validators run on
the `$set` paths first, regardless of whether the id matches anything: a
failing validator rejects the operation (the error channel carries the
validator's message; the service's catch at lines 155-161 and Mongoose's own
prefix add wrapper text around it that the model does not reproduce) and
leaves the store untouched.  On a valid patch, when no document carries the
id the result is `null` and the store is untouched; otherwise the matching
document is updated in place and returned.  Mongo ids are unique, so
updating every positional occurrence of the id coincides with updating the
single matching document. -/
def updateTodo (s : List Todo) (i : Nat) (u : TodoUpdateInput) :
    Except String (Option Todo) × List Todo :=
  match updateValidationError (buildUpdateData u) with
  | some msg => (Except.error msg, s)
  | none =>
      match s.find? (fun t => t.id == i) with
      | none => (Except.ok none, s)
      | some t =>
          (Except.ok (some (applyUpdate t u)),
           s.map (fun t' => if t'.id == i then applyUpdate t' u else t'))

/-- One application of `TodoService.toggleTodoStatus` to the found document
(src/services/TodoService.ts lines 204-205): `completed` is flipped, then
`status` becomes COMPLETED when the new `completed` is true and TODO
otherwise. -/
def toggleTodo (t : Todo) : Todo :=
  let c := !t.completed
  { t with
    completed := c
    status := if c then TodoStatus.COMPLETED else TodoStatus.TODO }

/-- Model of `TodoService.toggleTodoStatus` (src/services/TodoService.ts lines
199-208): `findById` then flip-and-save; `null` and an untouched store when
the id is absent. -/
def toggleTodoStatus (s : List Todo) (i : Nat) : Option Todo × List Todo :=
  match s.find? (fun t => t.id == i) with
  | none => (none, s)
  | some t =>
      (some (toggleTodo t),
       s.map (fun t' => if t'.id == i then toggleTodo t' else t'))

/-- Model of `TodoService.deleteTodo` via `findByIdAndDelete`
(src/services/TodoService.ts lines 167-170): returns whether a document was
found, and the store without the matching document. -/
def deleteTodo (s : List Todo) (i : Nat) : Bool × List Todo :=
  match s.find? (fun t => t.id == i) with
  | none => (false, s)
  | some _ => (true, s.filter (fun t => t.id != i))

/-- Model of `TodoService.deleteCompletedTodos` via `deleteMany({completed: true})`
(src/services/TodoService.ts lines 183-194): removes every completed
document and reports how many were removed. -/
def deleteCompletedTodos (s : List Todo) : Nat × List Todo :=
  (s.countP (fun t => t.completed), s.filter (fun t => !t.completed))

/-- The stats record returned by `TodoService.getTodoStats`; the two grouped
counts are sparse association lists, one entry per value present in the
store. -/
structure TodoStats where
  total : Nat
  completed : Nat
  pending : Nat
  byPriority : List (TodoPriority × Nat)
  byStatus : List (TodoStatus × Nat)
  deriving Repr

/-- Mongo `aggregate([{$group: {_id: "$field", count: {$sum: 1}}}])`: one
`(value, count)` entry for each distinct value the field takes in the store,
nothing for values taken by no document. -/
def groupCount {α : Type} [DecidableEq α] (f : Todo → α) (s : List Todo) :
    List (α × Nat) :=
  (s.map f).dedup.map (fun v => (v, s.countP (fun t => decide (f t = v))))

/-- Model of `TodoService.getTodoStats` (src/services/TodoService.ts lines 221-246):
total count, count of `{completed: true}`, count of `{completed: false}`,
and the two grouped counts. -/
def getTodoStats (s : List Todo) : TodoStats :=
  { total := s.length
    completed := s.countP (fun t => t.completed)
    pending := s.countP (fun t => !t.completed)
    byPriority := groupCount (fun t => t.priority) s
    byStatus := groupCount (fun t => t.status) s }

/-- The `updateTodo` GraphQL resolver (src/unnamed/part_000 lines 116-133):
a `null` from the service becomes a thrown `Error("Todo not found")`, which
the surrounding catch rewraps with the `Failed to update todo:` prefix; an
error thrown by the service (a failed update validation) is rewrapped with
the same prefix (the model applies the prefix once to the validator's
message, where the program stacks the service's and the resolver's wrappers;
the claims depend only on which failure it is, not on the wrapper text). -/
def updateTodoResolver (s : List Todo) (i : Nat) (u : TodoUpdateInput) :
    Except String Todo :=
  match (updateTodo s i u).1 with
  | Except.error msg => Except.error ("Failed to update todo: " ++ msg)
  | Except.ok none => Except.error ("Failed to update todo: Todo not found")
  | Except.ok (some t) => Except.ok t

/-- Decidable equality of `Except` results, used to evaluate the theorems
below on concrete inputs. -/
instance {ε α : Type} [DecidableEq ε] [DecidableEq α] :
    DecidableEq (Except ε α) := fun a b =>
  match a, b with
  | Except.error e, Except.error f =>
      if h : e = f then isTrue (congrArg Except.error h)
      else isFalse (fun hc => h (Except.error.inj hc))
  | Except.error _, Except.ok _ => isFalse (fun hc => Except.noConfusion hc)
  | Except.ok _, Except.error _ => isFalse (fun hc => Except.noConfusion hc)
  | Except.ok x, Except.ok y =>
      if h : x = y then isTrue (congrArg Except.ok h)
      else isFalse (fun hc => h (Except.ok.inj hc))

/-- Spec-side comparison point for the search clause: case-insensitive
prefix test, character by character. -/
def litMatchHere : List Char → List Char → Bool
  | [], _ => true
  | _ :: _, [] => false
  | p :: ps, c :: cs => charCI p c && litMatchHere ps cs

/-- Spec-side comparison point: the needle occurs, compared
case-insensitively, as a contiguous substring at some position of the hay. -/
def ciOccurs (p : List Char) : List Char → Bool
  | [] => litMatchHere p []
  | c :: cs => litMatchHere p (c :: cs) || ciOccurs p cs

/-- Spec-side search semantics, from the spec's words: "case-insensitive
substring match against `title` OR `description` (logical OR between these
two fields)". -/
def specSearchMatches (needle : String) (t : Todo) : Bool :=
  ciOccurs needle.toList t.title.toList ||
    (match t.description with
     | some d => ciOccurs needle.toList d.toList
     | none => false)

/-- The characters that are metacharacters of a JS regular expression. -/
def regexMetaChars : List Char :=
  ['.', '*', '+', '?', '^', '$', '(', ')', '[', ']', '\x7b', '\x7d', '|', '\\']

/-- On a pattern free of the `'.'` wildcard, anchored regex matching is the
case-insensitive prefix test. -/
theorem reMatchHere_eq_lit (p : List Char) :
    ∀ s : List Char, (∀ c ∈ p, c ≠ '.') → reMatchHere p s = litMatchHere p s := by
  induction p with
  | nil =>
      intro s _
      cases s <;> rfl
  | cons p ps ih =>
      intro s hp
      cases s with
      | nil => rfl
      | cons c cs =>
          have hp0 : p ≠ '.' := hp p (by simp)
          have hps : ∀ c ∈ ps, c ≠ '.' := fun c hc => hp c (by simp [hc])
          simp [reMatchHere, litMatchHere, reTokenMatch, hp0, ih cs hps]

/-- On a pattern free of the `'.'` wildcard, unanchored regex search is
case-insensitive substring occurrence. -/
theorem reSearch_eq_ciOccurs (p : List Char) (hp : ∀ c ∈ p, c ≠ '.')
    (s : List Char) : reSearch p s = ciOccurs p s := by
  induction s with
  | nil => simp [reSearch, ciOccurs, reMatchHere_eq_lit p [] hp]
  | cons c cs ih =>
      simp [reSearch, ciOccurs, reMatchHere_eq_lit p (c :: cs) hp, ih]

/-- A base document used to build concrete store states in the theorems
below. -/
def baseTodo : Todo :=
  { id := 1
    title := "t"
    description := none
    status := TodoStatus.TODO
    priority := TodoPriority.MEDIUM
    dueDate := none
    tags := []
    completed := false }

/-- A filter input that supplies `tags` as the empty list. -/
def cexFilters1 : TodoFilters := { tags := some [] }

/-- C1 counterexample: the claim "tags contributes a clause iff supplied"
fails — `cexFilters1` supplies `tags` (as the empty list), yet the built
query carries no tags clause, because the source guards the clause with
`filters.tags && filters.tags.length > 0`. -/
theorem C1_counterexample :
    (buildQuery cexFilters1).tagsIn.isSome = false ∧
    cexFilters1.tags.isSome = true := by decide

/-- C1 (amended): the query predicate built by the list operation carries the
`status`, `completed`, `priority`, `dueDateBefore` and `dueDateAfter` clauses
exactly when those filter fields are supplied (and with the supplied values);
the `tags` clause appears iff `tags` is supplied non-empty, and the `search`
clause iff `search` is supplied non-empty (JS truthiness drops the empty
string); when no filters are supplied the predicate matches every record. -/
theorem C1_theorem (f : TodoFilters) :
    (buildQuery f).status = f.status ∧
    (buildQuery f).completed = f.completed ∧
    (buildQuery f).priority = f.priority ∧
    ((buildQuery f).tagsIn.isSome ↔ ∃ ts, f.tags = some ts ∧ ts ≠ []) ∧
    ((buildQuery f).searchRegex.isSome ↔ ∃ s, f.search = some s ∧ s ≠ "") ∧
    (buildQuery f).dueLte = f.dueDateBefore ∧
    (buildQuery f).dueGte = f.dueDateAfter ∧
    (∀ t : Todo, queryMatches (getTodosQuery none) t = true) := by
  refine ⟨rfl, rfl, rfl, ?_, ?_, rfl, rfl, fun t => rfl⟩
  · cases htags : f.tags with
    | none => simp [buildQuery, htags]
    | some ts => cases ts <;> simp [buildQuery, htags]
  · cases hs : f.search with
    | none => simp [buildQuery, hs]
    | some s =>
        by_cases h : s = "" <;> simp [buildQuery, hs, h]

/-- A pagination input with a negative page. -/
def cexPagination2 : PaginationInput := { page := some (-1), limit := some 5 }

/-- C2 counterexample: the claim "page and limit are coerced to be at least
1" fails — `page = -1` passes through the `|| 1` default untouched (only
`undefined`/`0` are falsy), so the effective page is `-1 < 1` and the
computed skip is negative. -/
theorem C2_counterexample :
    effectivePage (some cexPagination2) = -1 ∧
    ¬ (1 ≤ effectivePage (some cexPagination2)) ∧
    skipOf (some cexPagination2) = -10 := by decide

/-- C2 (amended): `page` defaults to 1 and `limit` to 10 when absent (or 0,
by JS falsiness); no coercion to ≥ 1 is applied, supplied values pass through
unchanged; skip = (page - 1) * limit; in particular page=2, limit=5 yields
skip=5 and limit=5, and absent pagination yields skip=0 and limit=10. -/
theorem C2_theorem (p : Option PaginationInput) :
    skipOf p = (effectivePage p - 1) * effectiveLimit p ∧
    (p.bind (fun x => x.page) = none → effectivePage p = 1) ∧
    (p.bind (fun x => x.limit) = none → effectiveLimit p = 10) ∧
    (∀ v : Int, p.bind (fun x => x.page) = some v → v ≠ 0 → effectivePage p = v) ∧
    (∀ v : Int, p.bind (fun x => x.limit) = some v → v ≠ 0 → effectiveLimit p = v) ∧
    effectivePage (some { page := some 2, limit := some 5 }) = 2 ∧
    effectiveLimit (some { page := some 2, limit := some 5 }) = 5 ∧
    skipOf (some { page := some 2, limit := some 5 }) = 5 ∧
    skipOf none = 0 ∧
    effectiveLimit none = 10 := by
  refine ⟨rfl, ?_, ?_, ?_, ?_, by decide, by decide, by decide, by decide, by decide⟩
  · intro h
    simp [effectivePage, jsOrNum, h]
  · intro h
    simp [effectiveLimit, jsOrNum, h]
  · intro v h hv
    simp [effectivePage, jsOrNum, h, hv]
  · intro v h hv
    simp [effectiveLimit, jsOrNum, h, hv]

/-- C2 witness: the amended theorem applied at the empty pagination input. -/
theorem C2_witness :
    effectivePage none = 1 ∧ effectiveLimit none = 10 ∧ skipOf none = 0 :=
  ⟨(C2_theorem none).2.1 rfl, (C2_theorem none).2.2.1 rfl, (C2_theorem none).1⟩

/-- A stored document with title "x" and no description. -/
def cexTodo3 : Todo := { baseTodo with title := "x" }

/-- C3 counterexample: the claim "a record matches the search clause iff the
search string occurs as a case-insensitive substring of title or description"
fails for the search string "." — the source passes the string to `$regex`
unescaped, so "." is a wildcard: the title "x" matches the clause although
"." is not a substring of "x". -/
theorem C3_counterexample :
    searchClauseMatches (".") cexTodo3 = true ∧
    specSearchMatches (".") cexTodo3 = false := by decide

/-- C3 (amended): for every search string free of JS regex metacharacters, a
record matches the search clause iff the string occurs as a case-insensitive
substring of the record's title or of its description (logical OR between the
two fields, an absent description matching nothing); search strings
containing metacharacters are interpreted as regular expressions instead. -/
theorem C3_theorem (needle : String) (t : Todo)
    (h : ∀ c ∈ needle.toList, regexMetaChars.contains c = false) :
    searchClauseMatches needle t = specSearchMatches needle t := by
  have hdot : ∀ c ∈ needle.toList, c ≠ '.' := by
    intro c hc heq
    have hmeta := h c hc
    rw [heq] at hmeta
    simp [regexMetaChars] at hmeta
  simp only [searchClauseMatches, specSearchMatches, regexTestCI,
    reSearch_eq_ciOccurs needle.toList hdot]

/-- C3 witness: the amended theorem applied to the search string "ok" and a
concrete record. -/
theorem C3_witness :
    searchClauseMatches ("ok") cexTodo3 = specSearchMatches ("ok") cexTodo3 :=
  C3_theorem ("ok") cexTodo3 (by decide)

/-- A title of 201 characters, violating the schema's maxlength 200. -/
def cexTitle4 : String := String.mk (List.replicate 201 'a')

/-- An update input whose title fails the update validators. -/
def cexInput4 : TodoUpdateInput := { title := some cexTitle4 }

set_option maxRecDepth 8000 in
/-- C4 counterexample: the claim "for every id not present and every update
input, the update operation fails with a NotFoundError" fails — on the empty
store (where id 1 is certainly absent), the input carrying a 201-character
title is rejected by the `runValidators: true` update validation with the
schema's maxlength message, and neither the service nor the resolver ever
produces the not-found outcome. -/
theorem C4_counterexample :
    (updateTodo [] 1 cexInput4).1 =
      Except.error ("Title cannot exceed 200 characters") ∧
    updateTodoResolver [] 1 cexInput4 ≠
      Except.error ("Failed to update todo: Todo not found") := by decide

/-- C4 (amended): for every id not present in the store and every update
input that passes the schema's update validators, the update operation fails
with the not-found outcome — the service returns `null` leaving the store
untouched, and the GraphQL mutation surfaces this as the thrown "Todo not
found" error (the NotFoundError of the spec; the repo has no typed error
classes); an input failing validation is instead rejected with that
validator's message, also leaving the store untouched, even when the id is
absent. -/
theorem C4_theorem (s : List Todo) (i : Nat) (u : TodoUpdateInput) :
    (updateValidationError (buildUpdateData u) = none →
      (∀ t ∈ s, t.id ≠ i) →
      (updateTodo s i u).1 = Except.ok none ∧
      (updateTodo s i u).2 = s ∧
      updateTodoResolver s i u =
        Except.error ("Failed to update todo: Todo not found")) ∧
    (∀ msg, updateValidationError (buildUpdateData u) = some msg →
      (updateTodo s i u).1 = Except.error msg ∧
      (updateTodo s i u).2 = s) := by
  constructor
  · intro hv h
    have hfind : s.find? (fun t => t.id == i) = none := by
      rw [List.find?_eq_none]
      intro t ht
      simpa using h t ht
    refine ⟨?_, ?_, ?_⟩ <;>
      simp [updateTodo, updateTodoResolver, hv, hfind]
  · intro msg hmsg
    refine ⟨?_, ?_⟩ <;> simp [updateTodo, hmsg]

/-- C4 witness: the amended theorem applied to a one-record store, a missing
id and the empty (trivially valid) update input. -/
theorem C4_witness :
    (updateTodo [baseTodo] 2 {}).1 = Except.ok none ∧
    (updateTodo [baseTodo] 2 {}).2 = [baseTodo] ∧
    updateTodoResolver [baseTodo] 2 {} =
      Except.error ("Failed to update todo: Todo not found") :=
  (C4_theorem [baseTodo] 2 {}).1 rfl (by decide)

/-- C5: the completed/status coupling is one-directional — any update input
with `completed = true` yields `status = COMPLETED` regardless of prior
status and of any `status` the same input supplies (the overwrite at lines
143-145 wins), while an update setting `status = COMPLETED` without
mentioning `completed` leaves `completed` unchanged. -/
theorem C5_theorem (t : Todo) (u : TodoUpdateInput) :
    (u.completed = some true →
      (applyUpdate t u).status = TodoStatus.COMPLETED ∧
      (applyUpdate t u).completed = true) ∧
    (u.status = some TodoStatus.COMPLETED → u.completed = none →
      (applyUpdate t u).status = TodoStatus.COMPLETED ∧
      (applyUpdate t u).completed = t.completed) := by
  constructor
  · intro h
    simp [applyUpdate, applySet, buildUpdateData, h]
  · intro h1 h2
    simp [applyUpdate, applySet, buildUpdateData, h1, h2]

/-- C5 witness: an IN_PROGRESS record updated with `completed = true` and a
conflicting `status = TODO` in the same input still ends at COMPLETED. -/
theorem C5_witness :
    (applyUpdate { baseTodo with status := TodoStatus.IN_PROGRESS }
        { completed := some true, status := some TodoStatus.TODO }).status =
      TodoStatus.COMPLETED ∧
    (applyUpdate { baseTodo with status := TodoStatus.IN_PROGRESS }
        { completed := some true, status := some TodoStatus.TODO }).completed =
      true :=
  (C5_theorem { baseTodo with status := TodoStatus.IN_PROGRESS }
      { completed := some true, status := some TodoStatus.TODO }).1 rfl

/-- A stored record with `status = COMPLETED` and `completed = false` (a
mixed state reachable through the public interface, see C9). -/
def cexTodo6 : Todo := { baseTodo with status := TodoStatus.COMPLETED }

/-- C6 counterexample: the claim "toggle twice restores the original
completed/status pair except when starting at IN_PROGRESS/false" fails —
`cexTodo6` starts at COMPLETED/false, which is not the claimed exception,
yet two toggles end at TODO/false, not back at COMPLETED/false. -/
theorem C6_counterexample :
    (cexTodo6.status, cexTodo6.completed) ≠ (TodoStatus.IN_PROGRESS, false) ∧
    (toggleTodoStatus (toggleTodoStatus [cexTodo6] 1).2 1).2 ≠ [cexTodo6] := by
  decide

/-- C6 (amended): a single toggle flips `completed` and sets `status` to
COMPLETED if the record is now completed, else to TODO; toggling twice always
restores `completed` and drives `status` to the normal form determined by
`completed` (COMPLETED when completed, TODO otherwise) — so the original pair
is restored exactly when the original `status` already was that normal form,
and every other starting pair (IN_PROGRESS/false, but also COMPLETED/false,
TODO/true and IN_PROGRESS/true) is not restored. -/
theorem C6_theorem (t : Todo) :
    (toggleTodo t).completed = !t.completed ∧
    (toggleTodo t).status =
      (if (toggleTodo t).completed then TodoStatus.COMPLETED
       else TodoStatus.TODO) ∧
    (toggleTodo (toggleTodo t)).completed = t.completed ∧
    (toggleTodo (toggleTodo t)).status =
      (if t.completed then TodoStatus.COMPLETED else TodoStatus.TODO) ∧
    (toggleTodo (toggleTodo t) = t ↔
      t.status =
        (if t.completed then TodoStatus.COMPLETED else TodoStatus.TODO)) := by
  obtain ⟨i, ti, de, st, pr, du, tg, c⟩ := t
  cases c <;> simp [toggleTodo, Todo.mk.injEq, eq_comm]

/-- C7: statistics — `total` counts all records, `completed` counts records
with `completed = true`, `pending` counts records with `completed = false`
independent of their status (rewriting every record's status arbitrarily
leaves `pending` unchanged), and the empty store yields all-zero counts with
empty (not zero-filled) groupings. -/
theorem C7_theorem (s : List Todo) (f : Todo → TodoStatus) :
    (getTodoStats s).total = s.length ∧
    (getTodoStats s).completed = s.countP (fun t => t.completed) ∧
    (getTodoStats s).pending = s.countP (fun t => !t.completed) ∧
    (getTodoStats (s.map (fun t => { t with status := f t }))).pending =
      (getTodoStats s).pending ∧
    (getTodoStats []).total = 0 ∧
    (getTodoStats []).completed = 0 ∧
    (getTodoStats []).pending = 0 ∧
    (getTodoStats []).byPriority = [] ∧
    (getTodoStats []).byStatus = [] := by
  refine ⟨rfl, rfl, rfl, ?_, rfl, rfl, rfl, rfl, rfl⟩
  simp [getTodoStats, List.countP_map]
  rfl

/-- C8: delete-all-completed removes exactly the records with
`completed = true`, returns the number removed, and returns 0 (without
failing) when no record is completed. -/
theorem C8_theorem (s : List Todo) :
    (deleteCompletedTodos s).1 = s.countP (fun t => t.completed) ∧
    (∀ t : Todo, t ∈ (deleteCompletedTodos s).2 ↔ t ∈ s ∧ t.completed = false) ∧
    (s.countP (fun t => t.completed) = 0 → (deleteCompletedTodos s).1 = 0) := by
  refine ⟨rfl, ?_, fun h => h⟩
  intro t
  simp [deleteCompletedTodos, List.mem_filter]

/-- C8 witness: on a store whose only record is not completed, the operation
returns 0. -/
theorem C8_witness : (deleteCompletedTodos [baseTodo]).1 = 0 :=
  (C8_theorem [baseTodo]).2.2 (by decide)

/-- C9: an update whose input contains `completed = false` and no `status`
field leaves `status` unchanged and sets `completed` to false; in particular
un-completing a COMPLETED record yields the mixed state
`status = COMPLETED, completed = false`. -/
theorem C9_theorem (t : Todo) (u : TodoUpdateInput)
    (h1 : u.completed = some false) (h2 : u.status = none) :
    (applyUpdate t u).status = t.status ∧
    (applyUpdate t u).completed = false := by
  simp [applyUpdate, applySet, buildUpdateData, h1, h2]

/-- C9 witness: un-completing a COMPLETED record reaches the mixed state. -/
theorem C9_witness :
    (applyUpdate { baseTodo with status := TodoStatus.COMPLETED, completed := true }
        { completed := some false }).status = TodoStatus.COMPLETED ∧
    (applyUpdate { baseTodo with status := TodoStatus.COMPLETED, completed := true }
        { completed := some false }).completed = false :=
  C9_theorem { baseTodo with status := TodoStatus.COMPLETED, completed := true }
    { completed := some false } rfl rfl

/-- An id-targeted in-place edit whose result keeps the document's id leaves
the sub-list of documents with a different id untouched. -/
theorem filter_map_other_ids (s : List Todo) (i : Nat) (f : Todo → Todo)
    (hf : ∀ t, (f t).id = t.id) :
    (s.map (fun t => if t.id == i then f t else t)).filter
        (fun t => t.id != i) =
      s.filter (fun t => t.id != i) := by
  induction s with
  | nil => rfl
  | cons a s ih =>
      by_cases h : a.id = i
      · simpa [List.filter_cons, h, hf] using ih
      · simpa [List.filter_cons, h] using ih

/-- C10: frame property of the id-targeted mutations — update, toggle and
delete-by-id leave every record whose id differs from the target unchanged
(the sub-list of other-id records is preserved exactly), and when no record
carries the targeted id the whole store is unchanged. -/
theorem C10_theorem (s : List Todo) (i : Nat) (u : TodoUpdateInput) :
    ((updateTodo s i u).2.filter (fun t => t.id != i) =
      s.filter (fun t => t.id != i)) ∧
    ((toggleTodoStatus s i).2.filter (fun t => t.id != i) =
      s.filter (fun t => t.id != i)) ∧
    ((deleteTodo s i).2.filter (fun t => t.id != i) =
      s.filter (fun t => t.id != i)) ∧
    ((∀ t ∈ s, t.id ≠ i) →
      (updateTodo s i u).2 = s ∧
      (toggleTodoStatus s i).2 = s ∧
      (deleteTodo s i).2 = s) := by
  refine ⟨?_, ?_, ?_, fun h => ?_⟩
  · cases hv : updateValidationError (buildUpdateData u) with
    | some msg => simp [updateTodo, hv]
    | none =>
        cases hf : s.find? (fun t => t.id == i) with
        | none => simp [updateTodo, hv, hf]
        | some t =>
            simp only [updateTodo, hv, hf]
            exact filter_map_other_ids s i (fun t' => applyUpdate t' u)
              (fun t' => rfl)
  · cases hf : s.find? (fun t => t.id == i) with
    | none => simp [toggleTodoStatus, hf]
    | some t =>
        simp only [toggleTodoStatus, hf]
        exact filter_map_other_ids s i toggleTodo (fun t' => rfl)
  · cases hf : s.find? (fun t => t.id == i) with
    | none => simp [deleteTodo, hf]
    | some t =>
        simp only [deleteTodo, hf]
        rw [List.filter_filter]
        simp
  · have hfind : s.find? (fun t => t.id == i) = none := by
      rw [List.find?_eq_none]
      intro t ht
      simpa using h t ht
    refine ⟨?_, ?_, ?_⟩
    · cases hv : updateValidationError (buildUpdateData u) with
      | some msg => simp [updateTodo, hv]
      | none => simp [updateTodo, hv, hfind]
    · simp [toggleTodoStatus, hfind]
    · simp [deleteTodo, hfind]

/-- C10 witness: the three mutations targeted at an id absent from a
one-record store leave the store unchanged. -/
theorem C10_witness :
    (updateTodo [baseTodo] 2 {}).2 = [baseTodo] ∧
    (toggleTodoStatus [baseTodo] 2).2 = [baseTodo] ∧
    (deleteTodo [baseTodo] 2).2 = [baseTodo] :=
  (C10_theorem [baseTodo] 2 {}).2.2.2 (by decide)

end TodoBack
